import Mathlib

/-!
A verification development for the `pujogone` scripts
(`find_nearest_metro.py` and `fetch_metro_details.py`).

The Python source is shallowly embedded:

* Python floats are modelled exactly: as `ℚ` in the coordinate-resolution
  and precision-checking code (everything there is decimal arithmetic,
  string formatting and comparisons, so the model stays computable), and
  as `ℝ` in the haversine / nearest-station code (which uses `sin`, `cos`,
  `asin`, `sqrt`).
* File and network I/O is abstracted into explicit parameters: functions
  that read an HTTP response take the response's status code and body text
  as arguments, and functions that load JSON collections take the decoded
  collections as arguments.
* Exceptions are modelled with `Except` / explicit outcome types.
-/

/-! ## Rounding

`round(x, 7)` / `round(x, 2)` in the source.  Python's `round` uses
round-half-to-even; we model it exactly on the mathematical value.
-/

/-- Round-half-to-even to the nearest integer, as Python's built-in `round`
does (modelled on the exact value of the float). -/
def roundHalfEven {α : Type} [LinearOrderedField α] [FloorRing α]
    [DecidableRel ((· < ·) : α → α → Prop)] (x : α) : ℤ :=
  if x - (⌊x⌋ : α) < 1 / 2 then ⌊x⌋
  else if 1 / 2 < x - (⌊x⌋ : α) then ⌊x⌋ + 1
  else if ⌊x⌋ % 2 = 0 then ⌊x⌋ else ⌊x⌋ + 1

/-- `round(x, 7)` from the source (`fetch_metro_details.py`, e.g. lines 70,
219-220, 291-292, 344-345): round to 7 fractional decimal digits. -/
def round7 (x : ℚ) : ℚ :=
  (roundHalfEven (x * 10 ^ 7) : ℚ) / 10 ^ 7

/-! ## Fixed-point rendering with 7 fractional digits

`f'{lat:.7f}'` in `verify_coordinate_precision` (lines 164-165) and in the
precision check of `scrape_all_coordinates` (lines 206-207), followed by
`len(lat_str.split('.')[-1])`.
-/

/-- The 7 fractional-digit characters of the `%.7f` rendering: base-10
digits of `m` (already reduced mod `10 ^ 7`), most significant first. -/
def fracDigits7 (m : ℕ) : List Char :=
  (List.range 7).map (fun i => Nat.digitChar (m / 10 ^ (6 - i) % 10))

/-- `f'{q:.7f}'`: fixed-point rendering with exactly 7 fractional digits
(Python formats a float with round-half-to-even at the 7th digit). -/
def formatF7 (q : ℚ) : List Char :=
  (if roundHalfEven (q * 10 ^ 7) < 0 then ['-'] else []) ++
    Nat.toDigits 10 ((roundHalfEven (q * 10 ^ 7)).natAbs / 10 ^ 7) ++
    '.' :: fracDigits7 ((roundHalfEven (q * 10 ^ 7)).natAbs % 10 ^ 7)

/-- `len(s.split('.')[-1])`: the length of the segment after the last `'.'`
(the whole string when it has no `'.'`). -/
def decimalsAfterDot (cs : List Char) : ℕ :=
  (cs.reverse.takeWhile (fun c => c != '.')).length

/-- `len(f'{v:.7f}'.split('.')[-1])` — the decimal count the source computes
in `verify_coordinate_precision` and in `scrape_all_coordinates`. -/
def decimalsF7 (v : ℚ) : ℕ :=
  decimalsAfterDot (formatF7 v)

/-! ## Parsing of matched coordinate strings

`float(lat)` / `float(lng)` applied to strings matched by the regex groups
(`[0-9.-]+` or digit/dot shapes).  Over these character sets Python's
`float` accepts an optional leading minus, then digits with at most one
dot and at least one digit; anything else raises `ValueError`. -/

/-- Numeric value of a list of decimal digit characters. -/
def digitsVal (cs : List Char) : ℕ :=
  cs.foldl (fun acc c => 10 * acc + (c.toNat - 48)) 0

/-- `float(s)` for an unsigned string drawn from `[0-9.]`:
`"12"`, `"12."`, `".5"`, `"12.5"` parse; `""`, `"."`, `"1.2.3"`, or any
string with a stray non-digit fail. -/
def parseUnsignedFloat (cs : List Char) : Option ℚ :=
  match cs.dropWhile Char.isDigit with
  | [] => if (cs.takeWhile Char.isDigit).isEmpty then none
          else some (digitsVal (cs.takeWhile Char.isDigit))
  | '.' :: frac =>
    if frac.all Char.isDigit ∧ ((cs.takeWhile Char.isDigit) ≠ [] ∨ frac ≠ []) then
      some ((digitsVal (cs.takeWhile Char.isDigit) : ℚ) +
        (digitsVal frac : ℚ) / 10 ^ frac.length)
    else none
  | _ => none

/-- `float(s)` for strings drawn from `[0-9.-]`: an optional leading `'-'`
then an unsigned float.  `none` models the `ValueError` Python raises. -/
def parseFloat : List Char → Option ℚ
  | '-' :: rest => (parseUnsignedFloat rest).map (fun q => -q)
  | cs => parseUnsignedFloat cs

/-- The bounding-box validation
`22.0 <= lat_f <= 23.0 and 87.0 <= lng_f <= 89.0`
(`fetch_metro_details.py` lines 69 and 120). -/
def inKolkataBox (lat lng : ℚ) : Prop :=
  22 ≤ lat ∧ lat ≤ 23 ∧ 87 ≤ lng ∧ lng ≤ 89

instance (lat lng : ℚ) : Decidable (inKolkataBox lat lng) :=
  inferInstanceAs (Decidable (22 ≤ lat ∧ lat ≤ 23 ∧ 87 ≤ lng ∧ lng ≤ 89))

/-! ## The five extraction patterns

Each `matchAtPn` tries the corresponding regex anchored at the current
position and, on success, returns the two captured groups together with
the text remaining after the match.  The character classes of the regexes
are disjoint from the literal separators that follow them, so greedy
matching with no backtracking (maximal `takeWhile` runs) is equivalent to
Python's semantics; this is noted per pattern. -/

/-- `[0-9.-]` — the coordinate character class. -/
def isCoordChar (c : Char) : Bool :=
  c.isDigit || c == '.' || c == '-'

/-- `\s` — ASCII whitespace as matched by Python's `re` on these inputs. -/
def isSpaceChar (c : Char) : Bool :=
  c == ' ' || c == '\t' || c == '\n' || c == '\r' ||
    c == '\x0b' || c == '\x0c'

/-- Pattern 1: `@([0-9.-]+),([0-9.-]+)`.  `,` is not in the class, so the
greedy groups are the maximal class runs. -/
def matchAtP1 : List Char → Option ((List Char × List Char) × List Char)
  | '@' :: rest =>
    if (rest.takeWhile isCoordChar).isEmpty then none
    else
      match rest.dropWhile isCoordChar with
      | ',' :: r2 =>
        if (r2.takeWhile isCoordChar).isEmpty then none
        else some ((rest.takeWhile isCoordChar, r2.takeWhile isCoordChar),
          r2.dropWhile isCoordChar)
      | _ => none
  | _ => none

/-- Pattern 2: `!3d([0-9.-]+)!4d([0-9.-]+)`.  `!` is not in the class. -/
def matchAtP2 : List Char → Option ((List Char × List Char) × List Char)
  | '!' :: '3' :: 'd' :: rest =>
    if (rest.takeWhile isCoordChar).isEmpty then none
    else
      match rest.dropWhile isCoordChar with
      | '!' :: '4' :: 'd' :: r2 =>
        if (r2.takeWhile isCoordChar).isEmpty then none
        else some ((rest.takeWhile isCoordChar, r2.takeWhile isCoordChar),
          r2.dropWhile isCoordChar)
      | _ => none
  | _ => none

/-- Pattern 3: `center=([0-9.-]+)%2C([0-9.-]+)`.  `%` is not in the class. -/
def matchAtP3 : List Char → Option ((List Char × List Char) × List Char)
  | 'c' :: 'e' :: 'n' :: 't' :: 'e' :: 'r' :: '=' :: rest =>
    if (rest.takeWhile isCoordChar).isEmpty then none
    else
      match rest.dropWhile isCoordChar with
      | '%' :: '2' :: 'C' :: r2 =>
        if (r2.takeWhile isCoordChar).isEmpty then none
        else some ((rest.takeWhile isCoordChar, r2.takeWhile isCoordChar),
          r2.dropWhile isCoordChar)
      | _ => none
  | _ => none

/-- Pattern 4: `"lat":\s*([0-9.-]+),\s*"lng":\s*([0-9.-]+)`.  Whitespace,
the class, and the literals are pairwise disjoint. -/
def matchAtP4 : List Char → Option ((List Char × List Char) × List Char)
  | '"' :: 'l' :: 'a' :: 't' :: '"' :: ':' :: rest =>
    let r0 := rest.dropWhile isSpaceChar
    if (r0.takeWhile isCoordChar).isEmpty then none
    else
      match r0.dropWhile isCoordChar with
      | ',' :: r1 =>
        match r1.dropWhile isSpaceChar with
        | '"' :: 'l' :: 'n' :: 'g' :: '"' :: ':' :: r3 =>
          let r4 := r3.dropWhile isSpaceChar
          if (r4.takeWhile isCoordChar).isEmpty then none
          else some ((r0.takeWhile isCoordChar, r4.takeWhile isCoordChar),
            r4.dropWhile isCoordChar)
        | _ => none
      | _ => none
  | _ => none

/-- Pattern 5: `([0-9]{2}\.[0-9]{6,7}),([0-9]{2,3}\.[0-9]{6,7})`.  A
bounded greedy digit group followed by a non-digit literal matches exactly
when the maximal digit run has a length in the bound and the literal
follows; the final group takes at most 7 digits of its run (≥ 6). -/
def matchAtP5 : List Char → Option ((List Char × List Char) × List Char)
  | a :: b :: '.' :: rest =>
    if a.isDigit && b.isDigit then
      if 6 ≤ (rest.takeWhile Char.isDigit).length ∧
          (rest.takeWhile Char.isDigit).length ≤ 7 then
        match rest.dropWhile Char.isDigit with
        | ',' :: r1 =>
          if 2 ≤ (r1.takeWhile Char.isDigit).length ∧
              (r1.takeWhile Char.isDigit).length ≤ 3 then
            match r1.dropWhile Char.isDigit with
            | '.' :: r2 =>
              if 6 ≤ (r2.takeWhile Char.isDigit).length then
                some ((a :: b :: '.' :: rest.takeWhile Char.isDigit,
                  r1.takeWhile Char.isDigit ++
                    '.' :: (r2.takeWhile Char.isDigit).take 7),
                  r2.drop ((r2.takeWhile Char.isDigit).take 7).length)
              else none
            | _ => none
          else none
        | _ => none
      else none
    else none
  | _ => none

/-- `re.findall(pattern, text)` for a two-group pattern: scan left to
right, collect non-overlapping matches, resume after each match.  The
fuel argument only bounds the recursion; every matcher consumes at least
one character, so `length + 1` steps suffice. -/
def findallAux (m : List Char → Option ((List Char × List Char) × List Char)) :
    ℕ → List Char → List (List Char × List Char)
  | 0, _ => []
  | fuel + 1, cs =>
    match m cs with
    | some (g, rest) => g :: findallAux m fuel rest
    | none =>
      match cs with
      | [] => []
      | _ :: tail => findallAux m fuel tail

/-- `re.findall(pattern, response.text)`. -/
def findall (m : List Char → Option ((List Char × List Char) × List Char))
    (cs : List Char) : List (List Char × List Char) :=
  findallAux m (cs.length + 1) cs

/-- The priority-ordered pattern list (`patterns` at lines 53-59, repeated
as `coord_patterns` at lines 107-113). -/
def coordPatterns :
    List (List Char → Option ((List Char × List Char) × List Char)) :=
  [matchAtP1, matchAtP2, matchAtP3, matchAtP4, matchAtP5]

/-! ## The coordinate resolvers

`get_google_maps_coordinates` (lines 36-77) and
`get_coordinates_alternative` (lines 79-132).  The HTTP layer is
abstracted: the primary resolver takes the response's status code and
body; the alternative resolver takes the list of responses for its
query-variant x endpoint attempts in order (`none` for an attempt whose
request raised before a response was available). -/

/-- Outcome of scanning one response with the pattern list. -/
inductive ScanOutcome where
  | found (lat lng : ℚ)
  | parseError
  | noMatch
deriving DecidableEq

/-- The inner `for lat, lng in matches:` loop (lines 64-70): parse both
groups (a `ValueError` is an exception, `parseError`), return the first
pair inside the bounding box, fall through otherwise. -/
def scanMatchList : List (List Char × List Char) → ScanOutcome
  | [] => .noMatch
  | (s1, s2) :: rest =>
    match parseFloat s1, parseFloat s2 with
    | some la, some ln =>
      if inKolkataBox la ln then .found la ln else scanMatchList rest
    | _, _ => .parseError

/-- The `for pattern in patterns:` loop (lines 61-70): first `found` or
`parseError` stops the scan; a pattern whose matches all fail the box
check falls through to the next pattern. -/
def scanPatternList :
    List (List Char → Option ((List Char × List Char) × List Char)) →
      List Char → ScanOutcome
  | [], _ => .noMatch
  | m :: ms, text =>
    match scanMatchList (findall m text) with
    | .found la ln => .found la ln
    | .parseError => .parseError
    | .noMatch => scanPatternList ms text

/-- `get_google_maps_coordinates` (lines 36-77), given the response for its
single search query.  A non-200 status, no validated match, or an
exception (`ValueError` from `float`) all yield `(None, None)`; a
validated match is returned rounded to 7 decimals. -/
def get_google_maps_coordinates (status : ℕ) (text : List Char) :
    Option ℚ × Option ℚ :=
  if status = 200 then
    match scanPatternList coordPatterns text with
    | .found la ln => (some (round7 la), some (round7 ln))
    | _ => (none, none)
  else (none, none)

/-- The per-pattern scan of `get_coordinates_alternative` (lines 115-121):
only `matches[0]` of each pattern is examined, and a `ValueError` aborts
the whole response (the per-URL `except ... continue`). -/
def altScanPatternList :
    List (List Char → Option ((List Char × List Char) × List Char)) →
      List Char → ScanOutcome
  | [], _ => .noMatch
  | m :: ms, text =>
    match findall m text with
    | [] => altScanPatternList ms text
    | (s1, s2) :: _ =>
      match parseFloat s1, parseFloat s2 with
      | some la, some ln =>
        if inKolkataBox la ln then .found la ln else altScanPatternList ms text
      | _, _ => .parseError

/-- `get_coordinates_alternative` (lines 79-132), given the responses of
its query-variant x endpoint attempts in order.  The first validated
`matches[0]` wins and is returned unrounded; every failure mode moves on
to the next attempt, and `(None, None)` is returned when all attempts are
exhausted. -/
def get_coordinates_alternative :
    List (Option (ℕ × List Char)) → Option ℚ × Option ℚ
  | [] => (none, none)
  | none :: rest => get_coordinates_alternative rest
  | some (status, text) :: rest =>
    if status = 200 then
      match altScanPatternList coordPatterns text with
      | .found la ln => (some la, some ln)
      | _ => get_coordinates_alternative rest
    else get_coordinates_alternative rest

/-- Specification-side helper: the validated value of one extracted group
pair — its parsed coordinates when both groups parse and lie in the
bounding box. -/
def validOf (gp : List Char × List Char) : Option (ℚ × ℚ) :=
  match parseFloat gp.1, parseFloat gp.2 with
  | some la, some ln => if inKolkataBox la ln then some (la, ln) else none
  | _, _ => none

/-- All group pairs extracted from a response text, in priority order:
patterns in their fixed order, and within a pattern the matches left to
right. -/
def allExtractedPairs (text : List Char) : List (List Char × List Char) :=
  coordPatterns.flatMap (fun m => findall m text)

/-- Modelled from the spec: "the first match whose values satisfy the
bounding-box validation is accepted and resolution stops immediately". -/
def specFirstValidPair (text : List Char) : Option (ℚ × ℚ) :=
  ((allExtractedPairs text).filterMap validOf).head?

/-- The `matches[0]` group pair of each pattern that has any match, in
priority order — the only pairs `get_coordinates_alternative` ever
examines (line 118). -/
def allHeadPairs (text : List Char) : List (List Char × List Char) :=
  coordPatterns.filterMap (fun m => (findall m text).head?)

/-- The first validated `matches[0]` pair in pattern priority order —
what the alternative resolver accepts on a single response. -/
def specFirstValidHeadPair (text : List Char) : Option (ℚ × ℚ) :=
  ((allHeadPairs text).filterMap validOf).head?

/-! ## The station-maintenance operations of `MetroStationFetcher`

Stations as persisted in `kolkata_metro_stations.json`; `latitude` /
`longitude` are `Option` because stations may lack them before scraping
(`'latitude' in station` / `station.get('latitude', 0)` in the source). -/

structure MetroStation where
  name : String
  short_code : String
  location : String
  lines : List String
  latitude : Option ℚ
  longitude : Option ℚ
deriving DecidableEq

/-- The number of decimals `str(v)` shows for a Python float `v`, i.e. the
digit count after `'.'` of its decimal rendering: the least `k` with
`v * 10 ^ k` integral.  (Floats always have a terminating decimal
expansion, well below 101 digits; an exact integer renders as e.g. `22.0`,
one decimal, but the check below only compares against 7, where this
model and Python agree.)  Used by `force_fix_coordinates` lines 273-277. -/
def reprDecimals (v : ℚ) : ℕ :=
  (((List.range 101).find? (fun k => (v * 10 ^ k).den = 1)).getD 101)

/-- Lines 161-170 of `verify_coordinate_precision`, for one coordinate
value: render with `%.7f` and test whether the digit count after the dot
equals 7. -/
def coordDecimalsF7Correct (v : ℚ) : Bool :=
  decimalsF7 v == 7

/-- Lines 160-176: the per-station `is_correct` flag of
`verify_coordinate_precision` (`station.get('latitude', 0)` defaults a
missing coordinate to `0`). -/
def station_precision_ok (st : MetroStation) : Bool :=
  coordDecimalsF7Correct (st.latitude.getD 0) &&
    coordDecimalsF7Correct (st.longitude.getD 0)

/-- `verify_coordinate_precision(stations)` (lines 155-178): `all_correct`
is true iff every station passes the per-station check. -/
def verify_coordinate_precision (stations : List MetroStation) : Bool :=
  stations.all station_precision_ok

/-- The body of the `scrape_all_coordinates` loop (lines 195-232) for one
station, given the response of the Google Maps request it would make: skip
the station when both coordinates are present and the `%.7f`-based digit
counts are ≥ 7 (the `isinstance` test always holds for JSON numbers);
otherwise scrape, and on success store the coordinates rounded to 7
decimals. -/
def scrape_station_step (resp : ℕ × List Char) (st : MetroStation) :
    MetroStation :=
  match st.latitude, st.longitude with
  | some lat, some lng =>
    if 7 ≤ decimalsF7 lat ∧ 7 ≤ decimalsF7 lng then st
    else
      match get_google_maps_coordinates resp.1 resp.2 with
      | (some la, some ln) =>
        { st with latitude := some (round7 la), longitude := some (round7 ln) }
      | _ => st
  | _, _ =>
    match get_google_maps_coordinates resp.1 resp.2 with
    | (some la, some ln) =>
      { st with latitude := some (round7 la), longitude := some (round7 ln) }
    | _ => st

/-- The body of the `force_fix_coordinates` loop (lines 264-304) for one
station: skip when `str()` of both current values (missing defaults to
`0`) shows ≥ 7 decimals; otherwise scrape, and on success store the
coordinates rounded to 7 decimals. -/
def force_fix_step (resp : ℕ × List Char) (st : MetroStation) :
    MetroStation :=
  if 7 ≤ reprDecimals (st.latitude.getD 0) ∧
      7 ≤ reprDecimals (st.longitude.getD 0) then st
  else
    match get_google_maps_coordinates resp.1 resp.2 with
    | (some la, some ln) =>
      { st with latitude := some (round7 la), longitude := some (round7 ln) }
    | _ => st

/-- The body of the `final_fix_coordinates` loop (lines 335-352) for one
station: unconditionally round both coordinates (missing defaults to `0`)
to 7 decimals and store them. -/
def final_fix_step (st : MetroStation) : MetroStation :=
  { st with
    latitude := some (round7 (st.latitude.getD 0))
    longitude := some (round7 (st.longitude.getD 0)) }

/-! ## The great-circle metric and the nearest-station search

`find_nearest_metro.py`.  Floats are modelled as `ℝ`; `float('inf')` is
the top element of `EReal`. -/

/-- `math.radians(x) = x * pi / 180`. -/
noncomputable def radians (deg : ℝ) : ℝ :=
  deg * (Real.pi / 180)

/-- `haversine_distance` (lines 10-32): the haversine formula on a sphere
of radius 6,371,000 m, inputs in decimal degrees. -/
noncomputable def haversine_distance (lat1 lon1 lat2 lon2 : ℝ) : ℝ :=
  2 * Real.arcsin (Real.sqrt
    (Real.sin ((radians lat2 - radians lat1) / 2) ^ 2 +
      Real.cos (radians lat1) * Real.cos (radians lat2) *
        Real.sin ((radians lon2 - radians lon1) / 2) ^ 2)) * 6371000

/-- A metro station as consumed by `find_nearest_metro_station`: there the
coordinates are always present (`station['latitude']`). -/
structure Station where
  name : String
  short_code : String
  location : String
  lines : List String
  latitude : ℝ
  longitude : ℝ

/-- The distance computed in the loop body of `find_nearest_metro_station`
(lines 50-53). -/
noncomputable def stationDistance (plat plon : ℝ) (st : Station) : ℝ :=
  haversine_distance plat plon st.latitude st.longitude

/-- The `for station in metro_stations:` loop of
`find_nearest_metro_station` (lines 49-57), carrying the accumulator
`(nearest_station, min_distance)`. -/
noncomputable def find_nearest_loop (plat plon : ℝ) :
    List Station → Option Station × EReal → Option Station × EReal
  | [], acc => acc
  | station :: rest, acc =>
    find_nearest_loop plat plon rest
      (if (stationDistance plat plon station : EReal) < acc.2 then
        (some station, (stationDistance plat plon station : EReal))
      else acc)

/-- `find_nearest_metro_station` (lines 34-59): linear scan starting from
`(None, float('inf'))`. -/
noncomputable def find_nearest_metro_station (plat plon : ℝ)
    (metro_stations : List Station) : Option Station × EReal :=
  find_nearest_loop plat plon metro_stations (none, ⊤)

/-! ## The enrichment pipeline

`process_pandals_with_metro_data` (lines 61-127), with file I/O
abstracted: it takes the decoded pandal list and station list and returns
the enriched records (the surrounding `statusCode` / `metadata` envelope
carries no per-record content). -/

/-- A pandal record: coordinates are `Option` (the JSON record may lack
them), all other fields pass through opaquely. -/
structure Pandal where
  latitude : Option ℝ
  longitude : Option ℝ
  payload : List (String × String)

/-- A pandal together with the `nearest_metro_*` fields added at lines
89-96. -/
structure EnrichedPandal where
  base : Pandal
  nearest_metro_id : String
  nearest_metro_name : String
  nearest_metro_location : String
  nearest_metro_lines : List String
  nearest_metro_latitude : ℝ
  nearest_metro_longitude : ℝ
  nearest_metro_distance_meters : ℝ

/-- The uncaught Python exceptions the pipeline can die with:
`KeyError` on `pandal['latitude']` / `pandal['longitude']` (line 83-84),
and `TypeError` on `nearest_station['short_code']` when
`find_nearest_metro_station` returned `None` (line 90). -/
inductive PipelineError where
  | missingCoordinate
  | noneStation
deriving DecidableEq

/-- `round(distance, 2)` (line 96). -/
noncomputable def round2 (x : ℝ) : ℝ :=
  (roundHalfEven (x * 100) : ℝ) / 100

/-- One iteration of the pandal loop (lines 77-98): read the coordinates
(`KeyError` when missing), run the nearest-station search, and build the
updated record. -/
noncomputable def processOne (stations : List Station) (p : Pandal) :
    Except PipelineError EnrichedPandal :=
  match p.latitude, p.longitude with
  | some plat, some plon =>
    match find_nearest_metro_station plat plon stations with
    | (some nearest, distance) =>
      .ok { base := p
            nearest_metro_id := nearest.short_code
            nearest_metro_name := nearest.name
            nearest_metro_location := nearest.location
            nearest_metro_lines := nearest.lines
            nearest_metro_latitude := nearest.latitude
            nearest_metro_longitude := nearest.longitude
            nearest_metro_distance_meters := round2 distance.toReal }
    | (none, _) => .error .noneStation
  | _, _ => .error .missingCoordinate

/-- `process_pandals_with_metro_data` (lines 61-127) on the decoded
collections: process the pandals in input order, appending each enriched
record; any uncaught exception aborts the whole batch. -/
noncomputable def process_pandals_with_metro_data (pandals : List Pandal)
    (stations : List Station) : Except PipelineError (List EnrichedPandal) :=
  match pandals with
  | [] => .ok []
  | p :: rest =>
    match processOne stations p with
    | .ok r =>
      match process_pandals_with_metro_data rest stations with
      | .ok out => .ok (r :: out)
      | .error e => .error e
    | .error e => .error e

/-! ## Concrete fixtures used by witnesses and counterexamples -/

/-- A response body embedding an in-box `@lat,lng` coordinate. -/
def sampleText : List Char :=
  "@22.5726,88.3639".toList

/-- A response body whose only embedded coordinate lies outside the
bounding box. -/
def outOfBoxText : List Char :=
  "@25.5726,91.3639".toList

/-- A successful response carrying a precise in-box coordinate. -/
def sampleResponse : ℕ × List Char :=
  (200, "@22.4721796,88.3952919".toList)

/-- A response body whose first extracted pattern-1 group pair is the
unparsable `("-", "5")` (so `float('-')` raises) while its second
extracted pair `("22.5", "88.3")` is parsable and inside the bounding
box. -/
def parseFailText : List Char :=
  "@-,5@22.5,88.3".toList

/-- A response body whose first pattern-1 match is parsable but outside
the bounding box while its second match is inside it — so a resolver
examining only `matches[0]` misses the validated pair. -/
def altMissText : List Char :=
  "@25.5,91.3@22.5,88.3".toList

/-- A station whose stored coordinates carry fewer than 7 fractional
digits. -/
def underPreciseStation : MetroStation :=
  ⟨"Shahid Khudiram", "KSKD", "Briji", ["Blue Line"], some 22.48, some 88.381⟩

/-- A fixture station for the nearest-station search. -/
noncomputable def sampleStation : Station :=
  ⟨"Kavi Subhash", "KKVS", "New Garia", ["Blue Line", "Orange Line"],
    22.4721796, 88.3952919⟩

/-- A well-formed pandal record. -/
noncomputable def samplePandal : Pandal :=
  ⟨some 22.5, some 88.3, []⟩

/-- A malformed pandal record: its latitude field is missing. -/
noncomputable def badPandal : Pandal :=
  ⟨none, some 88.3, []⟩

theorem roundHalfEven_intCast {α : Type} [LinearOrderedField α] [FloorRing α]
    [DecidableRel ((· < ·) : α → α → Prop)] (z : ℤ) :
    roundHalfEven ((z : α)) = z := by
  unfold roundHalfEven
  rw [Int.floor_intCast, sub_self, if_pos (by norm_num : (0 : α) < 1 / 2)]

theorem le_roundHalfEven {α : Type} [LinearOrderedField α] [FloorRing α]
    [DecidableRel ((· < ·) : α → α → Prop)] {z : ℤ} {x : α}
    (hz : (z : α) ≤ x) : z ≤ roundHalfEven x := by
  have hf : z ≤ ⌊x⌋ := Int.le_floor.mpr hz
  unfold roundHalfEven
  split
  · exact hf
  · split
    · omega
    · split <;> omega

theorem roundHalfEven_le {α : Type} [LinearOrderedField α] [FloorRing α]
    [DecidableRel ((· < ·) : α → α → Prop)] {z : ℤ} {x : α}
    (hz : x ≤ (z : α)) : roundHalfEven x ≤ z := by
  have hf : ⌊x⌋ ≤ z := by
    have h := Int.floor_le_floor (α := α) hz
    rwa [Int.floor_intCast] at h
  have hstep : ¬x - (⌊x⌋ : α) < 1 / 2 → ⌊x⌋ + 1 ≤ z := by
    intro h1
    rcases lt_or_eq_of_le hf with h | h
    · omega
    · exfalso
      apply h1
      have hle : x - (⌊x⌋ : α) ≤ 0 := by
        rw [h]
        exact sub_nonpos.mpr hz
      linarith [show (0 : α) < 1 / 2 by norm_num]
  unfold roundHalfEven
  split
  · exact hf
  · rename_i h1
    split
    · exact hstep h1
    · split
      · exact hf
      · exact hstep h1

theorem round7_idem (x : ℚ) : round7 (round7 x) = round7 x := by
  unfold round7
  rw [div_mul_cancel₀ _ (by norm_num : (10 : ℚ) ^ 7 ≠ 0), roundHalfEven_intCast]

theorem round7_le_of_le {x : ℚ} {z : ℤ} (h : x ≤ (z : ℚ) / 10 ^ 7) :
    round7 x ≤ (z : ℚ) / 10 ^ 7 := by
  unfold round7
  have hx : x * 10 ^ 7 ≤ (z : ℚ) := by
    have h2 := mul_le_mul_of_nonneg_right h (show (0 : ℚ) ≤ 10 ^ 7 by norm_num)
    rwa [div_mul_cancel₀ _ (by norm_num : (10 : ℚ) ^ 7 ≠ 0)] at h2
  have h3 : ((roundHalfEven (x * 10 ^ 7) : ℤ) : ℚ) ≤ (z : ℚ) := by
    exact_mod_cast roundHalfEven_le hx
  gcongr

theorem le_round7_of_le {x : ℚ} {z : ℤ} (h : (z : ℚ) / 10 ^ 7 ≤ x) :
    (z : ℚ) / 10 ^ 7 ≤ round7 x := by
  unfold round7
  have hx : (z : ℚ) ≤ x * 10 ^ 7 := by
    have h2 := mul_le_mul_of_nonneg_right h (show (0 : ℚ) ≤ 10 ^ 7 by norm_num)
    rwa [div_mul_cancel₀ _ (by norm_num : (10 : ℚ) ^ 7 ≠ 0)] at h2
  have h3 : (z : ℚ) ≤ ((roundHalfEven (x * 10 ^ 7) : ℤ) : ℚ) := by
    exact_mod_cast le_roundHalfEven hx
  gcongr

theorem takeWhile_all_append {p : Char → Bool} (l1 : List Char) (c : Char)
    (l2 : List Char) (h1 : ∀ x ∈ l1, p x = true) (hc : p c = false) :
    (l1 ++ c :: l2).takeWhile p = l1 := by
  induction l1 with
  | nil => simp [List.takeWhile_cons, hc]
  | cons a t ih =>
    have ha := h1 a (List.mem_cons_self a t)
    simp [List.takeWhile_cons, ha,
      ih (fun x hx => h1 x (List.mem_cons_of_mem a hx))]

theorem fracDigits7_length (m : ℕ) : (fracDigits7 m).length = 7 := by
  simp [fracDigits7]

theorem fracDigits7_ne_dot (m : ℕ) :
    ∀ c ∈ fracDigits7 m, (c != '.') = true := by
  intro c hc
  simp only [fracDigits7, List.mem_map, List.mem_range] at hc
  obtain ⟨i, _, rfl⟩ := hc
  have hd : m / 10 ^ (6 - i) % 10 < 10 := Nat.mod_lt _ (by norm_num)
  have hall : ∀ d : ℕ, d < 10 → (Nat.digitChar d != '.') = true := by decide
  exact hall _ hd

/-- `%.7f` always renders exactly 7 characters after the final dot: the
precision check built on it can never see anything other than 7. -/
theorem decimalsF7_eq_seven (q : ℚ) : decimalsF7 q = 7 := by
  unfold decimalsF7 decimalsAfterDot formatF7
  rw [List.reverse_append, List.reverse_append, List.reverse_cons,
    List.append_assoc, List.singleton_append]
  rw [takeWhile_all_append]
  · rw [List.length_reverse, fracDigits7_length]
  · intro x hx
    exact fracDigits7_ne_dot _ x (List.mem_reverse.mp hx)
  · decide

theorem scanMatchList_spec (ms : List (List Char × List Char))
    (h : ∀ gp ∈ ms, (parseFloat gp.1).isSome ∧ (parseFloat gp.2).isSome) :
    scanMatchList ms =
      match (ms.filterMap validOf).head? with
      | some (la, ln) => ScanOutcome.found la ln
      | none => ScanOutcome.noMatch := by
  induction ms with
  | nil => rfl
  | cons gp rest ih =>
    obtain ⟨s1, s2⟩ := gp
    obtain ⟨h1, h2⟩ := h (s1, s2) (List.mem_cons_self _ rest)
    obtain ⟨la, hla⟩ := Option.isSome_iff_exists.mp h1
    obtain ⟨ln, hln⟩ := Option.isSome_iff_exists.mp h2
    have ih2 := ih (fun gp hgp => h gp (List.mem_cons_of_mem _ hgp))
    by_cases hbox : inKolkataBox la ln
    · simp [scanMatchList, hla, hln, hbox, List.filterMap_cons, validOf]
    · simp [scanMatchList, hla, hln, hbox, List.filterMap_cons, validOf, ih2]

theorem scanPatternList_spec
    (pats : List (List Char → Option ((List Char × List Char) × List Char)))
    (text : List Char)
    (h : ∀ gp ∈ pats.flatMap (fun m => findall m text),
      (parseFloat gp.1).isSome ∧ (parseFloat gp.2).isSome) :
    scanPatternList pats text =
      match ((pats.flatMap (fun m => findall m text)).filterMap validOf).head? with
      | some (la, ln) => ScanOutcome.found la ln
      | none => ScanOutcome.noMatch := by
  induction pats with
  | nil => rfl
  | cons m ms ih =>
    have hm : ∀ gp ∈ findall m text,
        (parseFloat gp.1).isSome ∧ (parseFloat gp.2).isSome := by
      intro gp hgp
      refine h gp ?_
      rw [List.flatMap_cons, List.mem_append]
      exact Or.inl hgp
    have hms : ∀ gp ∈ ms.flatMap (fun m => findall m text),
        (parseFloat gp.1).isSome ∧ (parseFloat gp.2).isSome := by
      intro gp hgp
      refine h gp ?_
      rw [List.flatMap_cons, List.mem_append]
      exact Or.inr hgp
    rw [List.flatMap_cons, List.filterMap_append]
    cases hfm : (findall m text).filterMap validOf with
    | nil =>
      rw [scanPatternList, scanMatchList_spec _ hm, hfm, ih hms]
      simp
    | cons v vs =>
      obtain ⟨la, ln⟩ := v
      rw [scanPatternList, scanMatchList_spec _ hm, hfm]
      simp

theorem scanMatchList_found_box (ms : List (List Char × List Char))
    {la ln : ℚ} (h : scanMatchList ms = .found la ln) : inKolkataBox la ln := by
  induction ms with
  | nil => exact absurd h (by simp [scanMatchList])
  | cons gp rest ih =>
    obtain ⟨s1, s2⟩ := gp
    rw [scanMatchList] at h
    split at h
    · split at h
      · cases h
        assumption
      · exact ih h
    · exact absurd h (by simp)

theorem scanPatternList_found_box
    (pats : List (List Char → Option ((List Char × List Char) × List Char)))
    (text : List Char) {la ln : ℚ}
    (h : scanPatternList pats text = .found la ln) : inKolkataBox la ln := by
  induction pats with
  | nil => exact absurd h (by simp [scanPatternList])
  | cons m ms ih =>
    rw [scanPatternList] at h
    cases hs : scanMatchList (findall m text) with
    | found a b =>
      rw [hs] at h
      cases h
      exact scanMatchList_found_box _ hs
    | parseError =>
      rw [hs] at h
      exact absurd h (by simp)
    | noMatch =>
      rw [hs] at h
      exact ih h

theorem altScanPatternList_spec
    (pats : List (List Char → Option ((List Char × List Char) × List Char)))
    (text : List Char)
    (h : ∀ gp ∈ pats.filterMap (fun m => (findall m text).head?),
      (parseFloat gp.1).isSome ∧ (parseFloat gp.2).isSome) :
    altScanPatternList pats text =
      match ((pats.filterMap (fun m =>
          (findall m text).head?)).filterMap validOf).head? with
      | some (la, ln) => ScanOutcome.found la ln
      | none => ScanOutcome.noMatch := by
  induction pats with
  | nil => rfl
  | cons m ms ih =>
    cases hf : findall m text with
    | nil =>
      have hlist : (m :: ms).filterMap (fun m => (findall m text).head?) =
          ms.filterMap (fun m => (findall m text).head?) := by
        simp [List.filterMap_cons, hf]
      rw [hlist] at h
      simp only [altScanPatternList, hf]
      rw [hlist]
      exact ih h
    | cons gp tail =>
      obtain ⟨s1, s2⟩ := gp
      have hmem : (s1, s2) ∈ (m :: ms).filterMap
          (fun m => (findall m text).head?) := by
        simp [List.filterMap_cons, hf]
      obtain ⟨h1, h2⟩ := h _ hmem
      obtain ⟨la, hla⟩ := Option.isSome_iff_exists.mp h1
      obtain ⟨ln, hln⟩ := Option.isSome_iff_exists.mp h2
      have hlist : (m :: ms).filterMap (fun m => (findall m text).head?) =
          (s1, s2) :: ms.filterMap (fun m => (findall m text).head?) := by
        simp [List.filterMap_cons, hf]
      by_cases hbox : inKolkataBox la ln
      · have hv : validOf (s1, s2) = some (la, ln) := by
          simp [validOf, hla, hln, hbox]
        rw [hlist]
        simp only [altScanPatternList, hf, hla, hln, List.filterMap_cons, hv]
        simp [hbox]
      · have hv : validOf (s1, s2) = none := by
          simp [validOf, hla, hln, hbox]
        have ih2 := ih (fun gp hgp => h gp
          (by rw [hlist]; exact List.mem_cons_of_mem _ hgp))
        rw [hlist]
        simp only [altScanPatternList, hf, hla, hln, List.filterMap_cons, hv]
        rw [if_neg hbox]
        exact ih2

theorem find_nearest_loop_spec (plat plon : ℝ) (l : List Station) :
    ∀ cur : Station,
      ∃ r, find_nearest_loop plat plon l
          (some cur, (stationDistance plat plon cur : EReal)) =
            (some r, (stationDistance plat plon r : EReal)) ∧
        stationDistance plat plon r ≤ stationDistance plat plon cur ∧
        (∀ s ∈ l, stationDistance plat plon r ≤ stationDistance plat plon s) ∧
        (r = cur ∨ ∃ l1 l2, l = l1 ++ r :: l2 ∧
          stationDistance plat plon r < stationDistance plat plon cur ∧
          ∀ s ∈ l1, stationDistance plat plon r < stationDistance plat plon s) := by
  induction l with
  | nil =>
    intro cur
    exact ⟨cur, rfl, le_refl _, by simp, Or.inl rfl⟩
  | cons station rest ih =>
    intro cur
    by_cases hlt : stationDistance plat plon station < stationDistance plat plon cur
    · have hstep : find_nearest_loop plat plon (station :: rest)
          (some cur, (stationDistance plat plon cur : EReal)) =
          find_nearest_loop plat plon rest
            (some station, (stationDistance plat plon station : EReal)) := by
        rw [find_nearest_loop]
        dsimp only
        rw [if_pos (EReal.coe_lt_coe_iff.mpr hlt)]
      obtain ⟨r, heq, hle, hmin, hcase⟩ := ih station
      refine ⟨r, hstep.trans heq, le_of_lt (lt_of_le_of_lt hle hlt), ?_, ?_⟩
      · intro s hs
        rcases List.mem_cons.mp hs with rfl | hs
        · exact hle
        · exact hmin s hs
      · rcases hcase with rfl | ⟨l1, l2, hsplit, hlt2, hfirst⟩
        · exact Or.inr ⟨[], rest, rfl, hlt, by simp⟩
        · refine Or.inr ⟨station :: l1, l2, by simp [hsplit], lt_of_le_of_lt hle hlt, ?_⟩
          intro s hs
          rcases List.mem_cons.mp hs with rfl | hs
          · exact hlt2
          · exact hfirst s hs
    · have hstep : find_nearest_loop plat plon (station :: rest)
          (some cur, (stationDistance plat plon cur : EReal)) =
          find_nearest_loop plat plon rest
            (some cur, (stationDistance plat plon cur : EReal)) := by
        rw [find_nearest_loop]
        dsimp only
        rw [if_neg (fun hc => hlt (EReal.coe_lt_coe_iff.mp hc))]
      obtain ⟨r, heq, hle, hmin, hcase⟩ := ih cur
      have hcs : stationDistance plat plon cur ≤ stationDistance plat plon station :=
        le_of_not_lt hlt
      refine ⟨r, hstep.trans heq, hle, ?_, ?_⟩
      · intro s hs
        rcases List.mem_cons.mp hs with rfl | hs
        · exact le_trans hle hcs
        · exact hmin s hs
      · rcases hcase with rfl | ⟨l1, l2, hsplit, hlt2, hfirst⟩
        · exact Or.inl rfl
        · refine Or.inr ⟨station :: l1, l2, by simp [hsplit], hlt2, ?_⟩
          intro s hs
          rcases List.mem_cons.mp hs with rfl | hs
          · exact lt_of_lt_of_le hlt2 hcs
          · exact hfirst s hs

theorem find_nearest_spec (plat plon : ℝ) (stations : List Station)
    (h : stations ≠ []) :
    ∃ r l1 l2, find_nearest_metro_station plat plon stations =
        (some r, (stationDistance plat plon r : EReal)) ∧
      stations = l1 ++ r :: l2 ∧
      (∀ s ∈ stations, stationDistance plat plon r ≤ stationDistance plat plon s) ∧
      (∀ s ∈ l1, stationDistance plat plon r < stationDistance plat plon s) := by
  match stations, h with
  | station :: rest, _ =>
    have hstep : find_nearest_metro_station plat plon (station :: rest) =
        find_nearest_loop plat plon rest
          (some station, (stationDistance plat plon station : EReal)) := by
      unfold find_nearest_metro_station
      rw [find_nearest_loop]
      dsimp only
      rw [if_pos (EReal.coe_lt_top _)]
    obtain ⟨r, heq, hle, hmin, hcase⟩ := find_nearest_loop_spec plat plon rest station
    rcases hcase with rfl | ⟨l1, l2, hsplit, hlt, hfirst⟩
    · refine ⟨r, [], rest, hstep.trans heq, rfl, ?_, by simp⟩
      intro s hs
      rcases List.mem_cons.mp hs with rfl | hs
      · exact le_refl _
      · exact hmin s hs
    · refine ⟨r, station :: l1, l2, hstep.trans heq, by simp [hsplit], ?_, ?_⟩
      · intro s hs
        rcases List.mem_cons.mp hs with rfl | hs
        · exact le_of_lt hlt
        · exact hmin s hs
      · intro s hs
        rcases List.mem_cons.mp hs with rfl | hs
        · exact hlt
        · exact hfirst s hs

theorem processOne_spec (stations : List Station) (p : Pandal)
    (plat plon : ℝ) (hlat : p.latitude = some plat)
    (hlon : p.longitude = some plon) (hs : stations ≠ []) :
    ∃ st, st ∈ stations ∧
      processOne stations p = .ok ⟨p, st.short_code, st.name, st.location,
        st.lines, st.latitude, st.longitude,
        round2 (stationDistance plat plon st)⟩ ∧
      (∀ s ∈ stations,
        stationDistance plat plon st ≤ stationDistance plat plon s) := by
  obtain ⟨st, l1, l2, heq, hsplit, hmin, hfirst⟩ :=
    find_nearest_spec plat plon stations hs
  refine ⟨st, by simp [hsplit], ?_, hmin⟩
  simp only [processOne, hlat, hlon, heq, EReal.toReal_coe]

/-! ## The claims -/

section
attribute [local semireducible] Rat.ofScientific Rat.mul Rat.inv Rat.add Rat.sub

/-- Claim C1: for every non-empty station list `F` and query coordinate,
`find_nearest_metro_station` returns the first station in `F`'s stored
order whose haversine distance to the query is minimal over `F`, paired
with that minimal distance; on an exact distance tie the earlier station
wins (every station strictly before the result is strictly farther). -/
theorem C1_nearest_first_minimal (plat plon : ℝ) (stations : List Station)
    (h : stations ≠ []) :
    ∃ r l1 l2, find_nearest_metro_station plat plon stations =
        (some r, (haversine_distance plat plon r.latitude r.longitude : EReal)) ∧
      stations = l1 ++ r :: l2 ∧
      (∀ s ∈ stations, haversine_distance plat plon r.latitude r.longitude ≤
        haversine_distance plat plon s.latitude s.longitude) ∧
      (∀ s ∈ l1, haversine_distance plat plon r.latitude r.longitude <
        haversine_distance plat plon s.latitude s.longitude) :=
  find_nearest_spec plat plon stations h

/-- Witness for C1 at a concrete one-station list. -/
theorem C1_nearest_first_minimal_witness :
    ([sampleStation] ≠ []) ∧
    (∃ r l1 l2, find_nearest_metro_station 22.5 88.3 [sampleStation] =
        (some r, (haversine_distance 22.5 88.3 r.latitude r.longitude : EReal)) ∧
      [sampleStation] = l1 ++ r :: l2 ∧
      (∀ s ∈ [sampleStation], haversine_distance 22.5 88.3 r.latitude r.longitude ≤
        haversine_distance 22.5 88.3 s.latitude s.longitude) ∧
      (∀ s ∈ l1, haversine_distance 22.5 88.3 r.latitude r.longitude <
        haversine_distance 22.5 88.3 s.latitude s.longitude)) :=
  ⟨by simp, C1_nearest_first_minimal 22.5 88.3 [sampleStation] (by simp)⟩

/-- Claim C2 (counterexample): with an empty station list the search does
not raise any error — it returns the `(None, inf)` pair, i.e. a `None`
station, contradicting "raises ... rather than returning a null/None
result". -/
theorem C2_counterexample :
    find_nearest_metro_station 22.5 88.3 [] = (none, ⊤) := rfl

/-- Claim C2 (amended): for every query coordinate, the search over an
empty station list returns `(None, float('inf'))` — a `None` station and
an infinite distance — rather than raising a `NoFacilitiesAvailable`
error (no such error exists in the code). -/
theorem C2_empty_returns_none (plat plon : ℝ) :
    find_nearest_metro_station plat plon [] = (none, ⊤) := rfl

/-- Claim C3 (counterexample): a batch whose first query point lacks its
latitude aborts the whole pipeline with an error; the well-formed second
point is never processed and no enriched record is produced. -/
theorem C3_counterexample :
    process_pandals_with_metro_data [badPandal, samplePandal] [sampleStation] =
      .error .missingCoordinate := rfl

/-- Claim C3 (amended): whenever any query point in the batch is missing
its latitude or longitude, the whole pipeline aborts with an error (the
uncaught `KeyError`) — no enriched output is produced and no per-item
failure is recorded. -/
theorem C3_malformed_aborts_batch :
    ∀ (pandals : List Pandal) (stations : List Station) (p : Pandal),
      p ∈ pandals → (p.latitude = none ∨ p.longitude = none) →
      ∃ e, process_pandals_with_metro_data pandals stations = .error e := by
  intro pandals
  induction pandals with
  | nil =>
    intro stations p hp
    cases hp
  | cons q rest ih =>
    intro stations p hp hbad
    rcases List.mem_cons.mp hp with rfl | hmem
    · have hq : processOne stations p = .error .missingCoordinate := by
        rcases hbad with hb | hb
        · simp [processOne, hb]
        · rcases hl : p.latitude with _ | v <;> simp [processOne, hl, hb]
      exact ⟨.missingCoordinate, by simp [process_pandals_with_metro_data, hq]⟩
    · obtain ⟨e, he⟩ := ih stations p hmem hbad
      cases hq : processOne stations q with
      | ok r => exact ⟨e, by simp [process_pandals_with_metro_data, hq, he]⟩
      | error e2 => exact ⟨e2, by simp [process_pandals_with_metro_data, hq]⟩

/-- Witness for the amended C3 at a concrete malformed batch. -/
theorem C3_malformed_aborts_batch_witness :
    badPandal ∈ [badPandal] ∧
    (badPandal.latitude = none ∨ badPandal.longitude = none) ∧
    ∃ e, process_pandals_with_metro_data [badPandal] [] = .error e :=
  ⟨by simp, Or.inl rfl,
    C3_malformed_aborts_batch [badPandal] [] badPandal (by simp) (Or.inl rfl)⟩

/-- Claim C4 (counterexample): the claim fails on the code in two ways.
On `"@-,5@22.5,88.3"` the first extracted pair satisfying the
bounding-box validation is `(22.5, 88.3)`, yet the primary resolver
returns `(None, None)`: the earlier unparsable group `"-"` raises a
`ValueError` that the function-level `except` turns into not-found.  On
`"@25.5,91.3@22.5,88.3"` the validated extracted pair `(22.5, 88.3)`
exists, yet the alternative resolver returns `(None, None)`: it examines
only `matches[0]` of each pattern. -/
theorem C4_counterexample :
    (specFirstValidPair parseFailText = some (22.5, 88.3) ∧
      get_google_maps_coordinates 200 parseFailText = (none, none)) ∧
    (specFirstValidPair altMissText = some (22.5, 88.3) ∧
      get_coordinates_alternative [some (200, altMissText)] = (none, none)) :=
  ⟨⟨by decide, by decide⟩, ⟨by decide, by decide⟩⟩

/-- Claim C4 (amended): the primary resolver tries its patterns in fixed
priority order, scanning each pattern's matches left to right, and —
provided every extracted group parses as a float — accepts the first
extracted pair that passes the bounding-box validation, rounded to 7
decimals, returning `(None, None)` when no validated match exists (a
group that `float()` rejects makes it return `(None, None)` immediately
instead).  The alternative resolver examines only `matches[0]` of each
pattern: on a response whose examined heads all parse it accepts the
first validated head in pattern order, unrounded, and returns
`(None, None)` when no pattern's first match validates.  In particular
`"@22.5726,88.3639"` resolves to `(22.5726, 88.3639)` and an
out-of-box-only response to not-found, for both resolvers. -/
theorem C4_amended_first_valid_match :
    (∀ text : List Char,
      (∀ gp ∈ allExtractedPairs text,
        (parseFloat gp.1).isSome ∧ (parseFloat gp.2).isSome) →
      get_google_maps_coordinates 200 text =
        match specFirstValidPair text with
        | some (la, ln) => (some (round7 la), some (round7 ln))
        | none => (none, none)) ∧
    (∀ text : List Char,
      (∀ gp ∈ allHeadPairs text,
        (parseFloat gp.1).isSome ∧ (parseFloat gp.2).isSome) →
      get_coordinates_alternative [some (200, text)] =
        match specFirstValidHeadPair text with
        | some (la, ln) => (some la, some ln)
        | none => (none, none)) ∧
    get_google_maps_coordinates 200 sampleText = (some 22.5726, some 88.3639) ∧
    get_google_maps_coordinates 200 outOfBoxText = (none, none) ∧
    get_coordinates_alternative [some (200, sampleText)] =
      (some 22.5726, some 88.3639) ∧
    get_coordinates_alternative [some (200, outOfBoxText)] = (none, none) := by
  refine ⟨?_, ?_, by decide, by decide, by decide, by decide⟩
  · intro text h
    unfold get_google_maps_coordinates specFirstValidPair allExtractedPairs
    rw [if_pos rfl, scanPatternList_spec coordPatterns text h]
    cases hh : ((coordPatterns.flatMap
        (fun m => findall m text)).filterMap validOf).head? with
    | none => rfl
    | some v =>
      obtain ⟨la, ln⟩ := v
      rfl
  · intro text h
    unfold get_coordinates_alternative specFirstValidHeadPair allHeadPairs
    rw [if_pos rfl, altScanPatternList_spec coordPatterns text h]
    cases hh : ((coordPatterns.filterMap
        (fun m => (findall m text).head?)).filterMap validOf).head? with
    | none => rfl
    | some v =>
      obtain ⟨la, ln⟩ := v
      rfl

/-- Witness for the two universally quantified parts of the amended C4
at the concrete in-box response. -/
theorem C4_amended_first_valid_match_witness :
    ((∀ gp ∈ allExtractedPairs sampleText,
        (parseFloat gp.1).isSome ∧ (parseFloat gp.2).isSome) ∧
      get_google_maps_coordinates 200 sampleText =
        match specFirstValidPair sampleText with
        | some (la, ln) => (some (round7 la), some (round7 ln))
        | none => (none, none)) ∧
    ((∀ gp ∈ allHeadPairs sampleText,
        (parseFloat gp.1).isSome ∧ (parseFloat gp.2).isSome) ∧
      get_coordinates_alternative [some (200, sampleText)] =
        match specFirstValidHeadPair sampleText with
        | some (la, ln) => (some la, some ln)
        | none => (none, none)) :=
  ⟨⟨by decide, C4_amended_first_valid_match.1 sampleText (by decide)⟩,
    ⟨by decide, C4_amended_first_valid_match.2.1 sampleText (by decide)⟩⟩

/-- Claim C5 (code evaluated at the failing input): the precision check
renders every value with `%.7f`, so the digit count after the dot is
always exactly 7 and the check returns true for every value — including
`22.48`, which the claim says must be rejected. -/
theorem C5_precision_check_always_true :
    (∀ v : ℚ, coordDecimalsF7Correct v = true) ∧
    coordDecimalsF7Correct (22.48 : ℚ) = true ∧
    verify_coordinate_precision [underPreciseStation] = true := by
  refine ⟨?_, by decide, by decide⟩
  intro v
  simp [coordDecimalsF7Correct, decimalsF7_eq_seven]

/-- Claim C6 (code evaluated at the failing input): the per-station step
of `scrape_all_coordinates` leaves every station with both coordinates present
unchanged — its `%.7f`-based precision check always passes — so a
present-but-under-precise station (latitude `22.48`) is not re-resolved;
`force_fix_coordinates`, whose check uses `str()`, does re-resolve it. -/
theorem C6_scrape_skips_underprecise :
    (∀ (resp : ℕ × List Char) (nm sc loc : String) (ls : List String)
      (la ln : ℚ),
      scrape_station_step resp ⟨nm, sc, loc, ls, some la, some ln⟩ =
        ⟨nm, sc, loc, ls, some la, some ln⟩) ∧
    scrape_station_step sampleResponse underPreciseStation =
      underPreciseStation ∧
    force_fix_step sampleResponse underPreciseStation ≠ underPreciseStation := by
  refine ⟨?_, by decide, by decide⟩
  intro resp nm sc loc ls la ln
  simp [scrape_station_step, decimalsF7_eq_seven]

/-- Claim C7: for a batch of well-formed query points and a non-empty
station list, the pipeline succeeds with exactly one enriched record per
input point, in input order; each record carries its point's fields plus
the fields of a minimizing station and the haversine distance to it
rounded to 2 decimal places. -/
theorem C7_enrich_order_and_distance :
    ∀ (pandals : List Pandal) (stations : List Station),
      (∀ p ∈ pandals, p.latitude.isSome ∧ p.longitude.isSome) →
      stations ≠ [] →
      ∃ out, process_pandals_with_metro_data pandals stations = .ok out ∧
        List.Forall₂ (fun (p : Pandal) (r : EnrichedPandal) =>
          r.base = p ∧
          ∃ plat plon st, p.latitude = some plat ∧ p.longitude = some plon ∧
            st ∈ stations ∧
            r.nearest_metro_id = st.short_code ∧
            r.nearest_metro_name = st.name ∧
            r.nearest_metro_location = st.location ∧
            r.nearest_metro_lines = st.lines ∧
            r.nearest_metro_latitude = st.latitude ∧
            r.nearest_metro_longitude = st.longitude ∧
            r.nearest_metro_distance_meters =
              round2 (haversine_distance plat plon st.latitude st.longitude) ∧
            ∀ s ∈ stations,
              haversine_distance plat plon st.latitude st.longitude ≤
                haversine_distance plat plon s.latitude s.longitude)
          pandals out := by
  intro pandals
  induction pandals with
  | nil =>
    intro stations _ _
    exact ⟨[], rfl, List.Forall₂.nil⟩
  | cons p rest ih =>
    intro stations hall hs
    obtain ⟨hplat, hplon⟩ := hall p (List.mem_cons_self _ _)
    obtain ⟨plat, hlat⟩ := Option.isSome_iff_exists.mp hplat
    obtain ⟨plon, hlon⟩ := Option.isSome_iff_exists.mp hplon
    obtain ⟨st, hmem, hpo, hmin⟩ := processOne_spec stations p plat plon hlat hlon hs
    obtain ⟨out, hout, hfa⟩ :=
      ih stations (fun q hq => hall q (List.mem_cons_of_mem _ hq)) hs
    refine ⟨⟨p, st.short_code, st.name, st.location, st.lines, st.latitude,
      st.longitude, round2 (stationDistance plat plon st)⟩ :: out, ?_, ?_⟩
    · rw [process_pandals_with_metro_data, hpo, hout]
    · exact List.Forall₂.cons
        ⟨rfl, plat, plon, st, hlat, hlon, hmem, rfl, rfl, rfl, rfl, rfl, rfl,
          rfl, hmin⟩ hfa

/-- Witness for C7 at a concrete one-point batch and one-station list. -/
theorem C7_enrich_order_and_distance_witness :
    (∀ p ∈ [samplePandal], p.latitude.isSome ∧ p.longitude.isSome) ∧
    ([sampleStation] ≠ []) ∧
    (∃ out,
      process_pandals_with_metro_data [samplePandal] [sampleStation] = .ok out ∧
      List.Forall₂ (fun (p : Pandal) (r : EnrichedPandal) =>
        r.base = p ∧
        ∃ plat plon st, p.latitude = some plat ∧ p.longitude = some plon ∧
          st ∈ [sampleStation] ∧
          r.nearest_metro_id = st.short_code ∧
          r.nearest_metro_name = st.name ∧
          r.nearest_metro_location = st.location ∧
          r.nearest_metro_lines = st.lines ∧
          r.nearest_metro_latitude = st.latitude ∧
          r.nearest_metro_longitude = st.longitude ∧
          r.nearest_metro_distance_meters =
            round2 (haversine_distance plat plon st.latitude st.longitude) ∧
          ∀ s ∈ [sampleStation],
            haversine_distance plat plon st.latitude st.longitude ≤
              haversine_distance plat plon s.latitude s.longitude)
        [samplePandal] out) :=
  ⟨by simp [samplePandal], by simp,
    C7_enrich_order_and_distance [samplePandal] [sampleStation]
      (by simp [samplePandal]) (by simp)⟩

/-- Claim C8: the haversine distance is zero from any point to itself and
is symmetric in its two points. -/
theorem C8_haversine_self_zero_and_symm :
    (∀ lat lon : ℝ, haversine_distance lat lon lat lon = 0) ∧
    (∀ lat1 lon1 lat2 lon2 : ℝ,
      haversine_distance lat1 lon1 lat2 lon2 =
        haversine_distance lat2 lon2 lat1 lon1) := by
  constructor
  · intro lat lon
    unfold haversine_distance
    simp [sub_self]
  · intro a b c d
    unfold haversine_distance
    have key : ∀ u v : ℝ,
        Real.sin ((u - v) / 2) ^ 2 = Real.sin ((v - u) / 2) ^ 2 := by
      intro u v
      rw [show (u - v) / 2 = -((v - u) / 2) by ring, Real.sin_neg]
      ring
    rw [key (radians c) (radians a), key (radians d) (radians b),
      mul_comm (Real.cos (radians a)) (Real.cos (radians c))]

/-- Claim C9: rounding to 7 fractional digits is idempotent, and a
normalized value renders (with the code's `%.7f` rendering) with exactly
7 fractional digits. -/
theorem C9_normalize_idem_and_renders7 (x : ℚ) :
    round7 (round7 x) = round7 x ∧ decimalsF7 (round7 x) = 7 :=
  ⟨round7_idem x, decimalsF7_eq_seven _⟩

/-- Claim C10: the primary resolver returns either `(None, None)` or a
pair of numbers inside the bounding box, each a fixed point of rounding
to 7 fractional digits; never a pair with exactly one `None` and never an
out-of-box coordinate. -/
theorem C10_primary_resolver_invariant (status : ℕ) (text : List Char) :
    get_google_maps_coordinates status text = (none, none) ∨
    ∃ la ln, get_google_maps_coordinates status text = (some la, some ln) ∧
      22 ≤ la ∧ la ≤ 23 ∧ 87 ≤ ln ∧ ln ≤ 89 ∧
      round7 la = la ∧ round7 ln = ln := by
  unfold get_google_maps_coordinates
  by_cases hst : status = 200
  · rw [if_pos hst]
    cases hscan : scanPatternList coordPatterns text with
    | found a b =>
      right
      obtain ⟨h1, h2, h3, h4⟩ := scanPatternList_found_box _ _ hscan
      have e22 : ((220000000 : ℤ) : ℚ) / 10 ^ 7 = 22 := by norm_num
      have e23 : ((230000000 : ℤ) : ℚ) / 10 ^ 7 = 23 := by norm_num
      have e87 : ((870000000 : ℤ) : ℚ) / 10 ^ 7 = 87 := by norm_num
      have e89 : ((890000000 : ℤ) : ℚ) / 10 ^ 7 = 89 := by norm_num
      refine ⟨round7 a, round7 b, rfl, ?_, ?_, ?_, ?_, round7_idem a,
        round7_idem b⟩
      · have h := le_round7_of_le (x := a) (z := 220000000) (by rw [e22]; exact h1)
        rwa [e22] at h
      · have h := round7_le_of_le (x := a) (z := 230000000) (by rw [e23]; exact h2)
        rwa [e23] at h
      · have h := le_round7_of_le (x := b) (z := 870000000) (by rw [e87]; exact h3)
        rwa [e87] at h
      · have h := round7_le_of_le (x := b) (z := 890000000) (by rw [e89]; exact h4)
        rwa [e89] at h
    | parseError =>
      left
      rfl
    | noMatch =>
      left
      rfl
  · rw [if_neg hst]
    left
    rfl

end
